import Mathlib

/-!
Shallow embedding of `pytorch_cls/core/trainer.py` from the
pytorch-classification repository, together with proofs about the
epoch-loop orchestration it implements: start-epoch resolution on
resume, the epoch range, the per-iteration action sequence (drop-path
scheduling, periodic checkpointing, conditional evaluation,
best-checkpoint saving), the per-batch training-step operation order in
the full-precision and mixed-precision variants, the device-count
configuration check, mixed-precision overflow handling, and the
per-batch meter bookkeeping of `train_epoch` / `test_epoch`.

Numeric configuration values that are Python floats are modelled as
rationals; epoch indices and batch sizes are naturals.
-/

namespace PytorchCls

/-- The configuration fields of `pytorch_cls.core.config.cfg` that
`trainer.py` consumes.  `weights` models `cfg.TRAIN.WEIGHTS`, a string
whose Python truthiness (non-emptiness) selects the initial-weights
branch. -/
structure Config where
  numGpus : Nat                -- cfg.NUM_GPUS
  maxEpoch : Nat               -- cfg.OPTIM.MAX_EPOCH
  checkpointPeriod : Nat       -- cfg.TRAIN.CHECKPOINT_PERIOD
  evalPeriod : Nat             -- cfg.TRAIN.EVAL_PERIOD
  autoResume : Bool            -- cfg.TRAIN.AUTO_RESUME
  weights : String             -- cfg.TRAIN.WEIGHTS
  trainAmp : Bool              -- cfg.TRAIN.AMP
  gradClip : ℚ                 -- cfg.OPTIM.GRAD_CLIP
  auxWeight : ℚ                -- cfg.DARTS.AUX_WEIGHT
  modelType : String           -- cfg.MODEL.TYPE
  dropPathProb : ℚ             -- cfg.DARTS.DROP_PATH_PROB
  usePreciseStats : Bool       -- cfg.BN.USE_PRECISE_STATS
  precTimeNumIter : Nat        -- cfg.PREC_TIME.NUM_ITER
  deriving DecidableEq, Repr

/-- Outcome of the checkpoint/initial-weights resolution at the top of
`train_model` (trainer.py lines 212-223): the start epoch and which
states were loaded from disk. -/
structure ResumeDecision where
  startEpoch : Nat
  loadedModel : Bool
  loadedOptimizer : Bool
  deriving DecidableEq, Repr

/-- trainer.py lines 213-223:
`start_epoch = 0`;
`if cfg.TRAIN.AUTO_RESUME and checkpoint.has_checkpoint():` load the last
checkpoint into model and optimizer and set
`start_epoch = checkpoint_epoch + 1`;
`elif cfg.TRAIN.WEIGHTS:` load weights into the model only (the
optimizer argument is omitted) and leave `start_epoch = 0`. -/
def resolveStart (cfg : Config) (hasCheckpoint : Bool) (checkpointEpoch : Nat) :
    ResumeDecision :=
  if cfg.autoResume && hasCheckpoint then
    { startEpoch := checkpointEpoch + 1, loadedModel := true, loadedOptimizer := true }
  else if cfg.weights ≠ "" then
    { startEpoch := 0, loadedModel := true, loadedOptimizer := false }
  else
    { startEpoch := 0, loadedModel := false, loadedOptimizer := false }

/-- trainer.py line 234: `for cur_epoch in range(start_epoch, cfg.OPTIM.MAX_EPOCH)`.
The list of epoch indices the training loop iterates over. -/
def epochsRun (startEpoch maxEpoch : Nat) : List Nat :=
  List.range' startEpoch (maxEpoch - startEpoch)

/-- C1: when train mode starts, if auto-resume is enabled and a last
checkpoint exists, the checkpoint is loaded into both model and optimizer
and start = checkpoint_epoch + 1; otherwise, if an initial-weights path
is configured, only the model weights are loaded and start = 0;
otherwise start = 0 with nothing loaded. -/
theorem start_epoch_resolution (cfg : Config) (hasCheckpoint : Bool)
    (checkpointEpoch : Nat) :
    (cfg.autoResume = true ∧ hasCheckpoint = true →
      resolveStart cfg hasCheckpoint checkpointEpoch =
        { startEpoch := checkpointEpoch + 1, loadedModel := true, loadedOptimizer := true }) ∧
    (¬(cfg.autoResume = true ∧ hasCheckpoint = true) → cfg.weights ≠ "" →
      resolveStart cfg hasCheckpoint checkpointEpoch =
        { startEpoch := 0, loadedModel := true, loadedOptimizer := false }) ∧
    (¬(cfg.autoResume = true ∧ hasCheckpoint = true) → cfg.weights = "" →
      resolveStart cfg hasCheckpoint checkpointEpoch =
        { startEpoch := 0, loadedModel := false, loadedOptimizer := false }) := by
  refine ⟨?_, ?_, ?_⟩ <;> intro h
  · rcases h with ⟨h1, h2⟩
    simp [resolveStart, h1, h2]
  · intro hw
    rcases Bool.eq_false_or_eq_true cfg.autoResume with ha | ha <;>
      rcases Bool.eq_false_or_eq_true hasCheckpoint with hc | hc <;>
        simp_all [resolveStart]
  · intro hw
    rcases Bool.eq_false_or_eq_true cfg.autoResume with ha | ha <;>
      rcases Bool.eq_false_or_eq_true hasCheckpoint with hc | hc <;>
        simp_all [resolveStart]

/-- A concrete configuration used to evaluate the resume logic. -/
def cfgResume : Config :=
  { numGpus := 1, maxEpoch := 5, checkpointPeriod := 1, evalPeriod := 1,
    autoResume := true, weights := "", trainAmp := false, gradClip := 0,
    auxWeight := 0, modelType := "resnet", dropPathProb := 0,
    usePreciseStats := false, precTimeNumIter := 0 }

/-- Witness for `start_epoch_resolution`: with auto-resume on and a
checkpoint at epoch 3 present, the resolution loads model and optimizer
and starts at epoch 4. -/
theorem start_epoch_resolution_witness :
    resolveStart cfgResume true 3 =
      { startEpoch := 4, loadedModel := true, loadedOptimizer := true } :=
  (start_epoch_resolution cfgResume true 3).1 ⟨rfl, rfl⟩

/-- C2 counterexample: resuming from a checkpoint whose stored epoch
index is 3 with max_epoch = 5 does NOT run two more epochs: the loop
`range(start_epoch, max_epoch)` = `range(4, 5)` visits exactly one
epoch index, so the claimed count of 2 is false. -/
theorem resume_two_epochs_false :
    ¬((epochsRun (resolveStart cfgResume true 3).startEpoch cfgResume.maxEpoch).length = 2) := by
  decide

/-- C2 amended: with auto-resume on, a last checkpoint whose stored
epoch index is 3, and max_epoch = 5, training resumes at epoch index 4
and runs exactly one more epoch, namely epoch index 4 (the final one);
no epoch index ≤ 3 is re-run. -/
theorem resume_runs_one_epoch :
    (resolveStart cfgResume true 3).startEpoch = 4 ∧
    epochsRun (resolveStart cfgResume true 3).startEpoch cfgResume.maxEpoch = [4] ∧
    ∀ e ∈ epochsRun (resolveStart cfgResume true 3).startEpoch cfgResume.maxEpoch,
      3 < e := by
  refine ⟨rfl, rfl, ?_⟩
  decide

/-- The externally visible actions one iteration of the training loop
(trainer.py lines 234-264) can perform, in program order. -/
inductive Action where
  | setDropProb (p : ℚ)
  | trainEpoch (e : Nat)
  | preciseBN
  | saveCheckpoint (e : Nat) (isBest : Bool)
  | testEpoch (e : Nat)
  deriving DecidableEq, Repr

/-- State of the best-result tracking carried by the test meter across
the training loop. -/
structure TestMeterState where
  minTop1Err : ℚ
  isBest : Bool
  deriving DecidableEq, Repr

/-- Modelled from the spec: `pytorch_cls/core/meters.py` (TestMeter) is
not under src/.  Per §3 (BestTracker: best top-1 error initialized to
+infinity, updated after every evaluation epoch) and §4.1 step 6 /
§9 (a best-flagged checkpoint is written when the just-completed
evaluation strictly improved on the tracked best top-1 error), running
`test_epoch` with epoch top-1 error `top1` sets `is_best` to whether
`top1` strictly improves the tracked minimum and folds `top1` into the
minimum. -/
def testEpochMeter (m : TestMeterState) (top1 : ℚ) : TestMeterState :=
  { minTop1Err := min m.minTop1Err top1, isBest := decide (top1 < m.minTop1Err) }

/-- One iteration of the training loop, trainer.py lines 234-264, for
epoch `e`.  `evalTop1` is the epoch top-1 error the evaluation would
report if it runs (it depends on data and model state, which are inputs
here).  Returns the actions performed in program order and the test
meter state after the iteration:
- lines 235-240: if `cfg.MODEL.TYPE == 'darts_cnn' and cfg.DARTS.DROP_PATH_PROB > 0`,
  set the drop-path probability to `DROP_PATH_PROB * cur_epoch / MAX_EPOCH`;
- lines 242-243: `train_epoch`;
- lines 245-246: precise BN stats if enabled;
- lines 248-250: periodic checkpoint if `(cur_epoch + 1) % CHECKPOINT_PERIOD == 0`;
- lines 253-256: `test_epoch` if `(cur_epoch+1) % EVAL_PERIOD == 0 or cur_epoch+1 == MAX_EPOCH`;
- lines 258-260: save a best-flagged checkpoint if `test_meter.is_best`.
When no evaluation runs, `is_best` does not refer to a just-completed
evaluation (spec-modelled, see `testEpochMeter`), so it is false. -/
def loopIteration (cfg : Config) (m : TestMeterState) (e : Nat) (evalTop1 : ℚ) :
    List Action × TestMeterState :=
  let dropActs : List Action :=
    if cfg.modelType = "darts_cnn" ∧ 0 < cfg.dropPathProb then
      [Action.setDropProb (cfg.dropPathProb * e / cfg.maxEpoch)]
    else []
  let bnActs : List Action := if cfg.usePreciseStats then [Action.preciseBN] else []
  let ckptActs : List Action :=
    if (e + 1) % cfg.checkpointPeriod = 0 then [Action.saveCheckpoint e false] else []
  let doEval : Prop := (e + 1) % cfg.evalPeriod = 0 ∨ e + 1 = cfg.maxEpoch
  let evalActs : List Action := if doEval then [Action.testEpoch e] else []
  let m' : TestMeterState :=
    if doEval then testEpochMeter m evalTop1 else { m with isBest := false }
  let bestActs : List Action :=
    if m'.isBest then [Action.saveCheckpoint e true] else []
  (dropActs ++ [Action.trainEpoch e] ++ bnActs ++ ckptActs ++ evalActs ++ bestActs, m')

/-- Helper: a test epoch appears in the iteration's actions exactly when
the evaluation condition of trainer.py line 254 holds. -/
lemma mem_testEpoch_iteration (cfg : Config) (m : TestMeterState) (e : Nat)
    (evalTop1 : ℚ) :
    Action.testEpoch e ∈ (loopIteration cfg m e evalTop1).1 ↔
      ((e + 1) % cfg.evalPeriod = 0 ∨ e + 1 = cfg.maxEpoch) := by
  simp only [loopIteration]
  split_ifs <;> simp_all

/-- Helper: a best-flagged checkpoint appears in the iteration's actions
exactly when the meter's `is_best` flag is set after the conditional
evaluation. -/
lemma mem_bestCheckpoint_iteration (cfg : Config) (m : TestMeterState) (e : Nat)
    (evalTop1 : ℚ) :
    Action.saveCheckpoint e true ∈ (loopIteration cfg m e evalTop1).1 ↔
      (loopIteration cfg m e evalTop1).2.isBest = true := by
  simp only [loopIteration]
  split_ifs <;> simp_all

/-- C5: a test epoch runs in the iteration for epoch `e` iff
`(e+1) mod eval_period == 0` or `e+1 == max_epoch`. -/
theorem test_epoch_condition (cfg : Config) (m : TestMeterState) (e : Nat)
    (evalTop1 : ℚ) :
    Action.testEpoch e ∈ (loopIteration cfg m e evalTop1).1 ↔
      ((e + 1) % cfg.evalPeriod = 0 ∨ e + 1 = cfg.maxEpoch) :=
  mem_testEpoch_iteration cfg m e evalTop1

/-- C3: a best-flagged checkpoint is written in the iteration for epoch
`e` iff a test epoch ran in that same iteration and its top-1 error
strictly improved on the tracked best top-1 error. -/
theorem best_checkpoint_condition (cfg : Config) (m : TestMeterState) (e : Nat)
    (evalTop1 : ℚ) :
    Action.saveCheckpoint e true ∈ (loopIteration cfg m e evalTop1).1 ↔
      (Action.testEpoch e ∈ (loopIteration cfg m e evalTop1).1 ∧
        evalTop1 < m.minTop1Err) := by
  rw [mem_bestCheckpoint_iteration, mem_testEpoch_iteration]
  by_cases hc : (e + 1) % cfg.evalPeriod = 0 ∨ e + 1 = cfg.maxEpoch
  · simp [loopIteration, testEpochMeter, hc]
  · simp [loopIteration, hc]

/-- C6: when the model family is `darts_cnn` and the drop-path base rate
is positive, the iteration first applies drop probability
`base_rate * e / max_epoch` to the model and then runs the training
epoch. -/
theorem drop_prob_schedule (cfg : Config) (m : TestMeterState) (e : Nat)
    (evalTop1 : ℚ) (hty : cfg.modelType = "darts_cnn")
    (hpos : 0 < cfg.dropPathProb) :
    (loopIteration cfg m e evalTop1).1.take 2 =
      [Action.setDropProb (cfg.dropPathProb * e / cfg.maxEpoch),
        Action.trainEpoch e] := by
  simp [loopIteration, hty, hpos]

/-- A concrete darts_cnn configuration used to evaluate the loop
iteration. -/
def cfgDarts : Config :=
  { numGpus := 1, maxEpoch := 4, checkpointPeriod := 1, evalPeriod := 2,
    autoResume := false, weights := "", trainAmp := false, gradClip := 5,
    auxWeight := 2/5, modelType := "darts_cnn", dropPathProb := 1/2,
    usePreciseStats := false, precTimeNumIter := 0 }

/-- Witness for `drop_prob_schedule`: for `cfgDarts` at epoch 1 the
iteration starts by setting drop probability (1/2)·1/4 = 1/8 and then
training. -/
theorem drop_prob_schedule_witness :
    (loopIteration cfgDarts { minTop1Err := 100, isBest := false } 1 30).1.take 2 =
      [Action.setDropProb (cfgDarts.dropPathProb * 1 / cfgDarts.maxEpoch),
        Action.trainEpoch 1] :=
  drop_prob_schedule cfgDarts { minTop1Err := 100, isBest := false } 1 30 rfl
    (by norm_num [cfgDarts])

/-- The operations one training mini-batch performs inside `train_epoch`
(trainer.py lines 103-139), in program order. -/
inductive StepOp where
  | forwardPass
  | computeLoss
  | addAuxLoss
  | zeroGrad
  | backward
  | clipGradNorm
  | optimizerStep
  | scalerStep
  | scalerUpdate
  deriving DecidableEq, Repr

/-- trainer.py lines 107-123, the mini-batch body when the AMP scaler is
active: forward and loss (with the auxiliary loss added when
`cfg.DARTS.AUX_WEIGHT > 0 and cfg.MODEL.TYPE == 'darts_cnn'`), then
`optimizer.zero_grad()`, `scaler.scale(loss).backward()`,
`scaler.step(optimizer)`, `scaler.update()`.  No gradient clipping
appears on this path. -/
def ampStepOps (cfg : Config) : List StepOp :=
  (if 0 < cfg.auxWeight ∧ cfg.modelType = "darts_cnn" then
    [StepOp.forwardPass, StepOp.computeLoss, StepOp.addAuxLoss]
  else
    [StepOp.forwardPass, StepOp.computeLoss]) ++
  [StepOp.zeroGrad, StepOp.backward, StepOp.scalerStep, StepOp.scalerUpdate]

/-- trainer.py lines 124-139, the mini-batch body without the AMP
scaler: forward and loss (with the auxiliary loss when configured), then
`optimizer.zero_grad()`, `loss.backward()`, gradient-norm clipping when
`cfg.OPTIM.GRAD_CLIP > 0`, and `optimizer.step()`. -/
def fullStepOps (cfg : Config) : List StepOp :=
  (if 0 < cfg.auxWeight ∧ cfg.modelType = "darts_cnn" then
    [StepOp.forwardPass, StepOp.computeLoss, StepOp.addAuxLoss]
  else
    [StepOp.forwardPass, StepOp.computeLoss]) ++
  [StepOp.zeroGrad, StepOp.backward] ++
  (if 0 < cfg.gradClip then [StepOp.clipGradNorm] else []) ++
  [StepOp.optimizerStep]

/-- trainer.py lines 101-102: the scaler exists iff `cfg.TRAIN.AMP` is
set and the platform has `torch.cuda.amp.autocast`; the mini-batch body
is chosen accordingly (lines 107 and 124). -/
def trainStepOps (cfg : Config) (ampAvailable : Bool) : List StepOp :=
  if cfg.trainAmp && ampAvailable then ampStepOps cfg else fullStepOps cfg

/-- A concrete configuration with AMP enabled and a positive
gradient-clip threshold. -/
def cfgAmpClip : Config :=
  { numGpus := 1, maxEpoch := 4, checkpointPeriod := 1, evalPeriod := 1,
    autoResume := false, weights := "", trainAmp := true, gradClip := 5,
    auxWeight := 0, modelType := "resnet", dropPathProb := 0,
    usePreciseStats := false, precTimeNumIter := 0 }

/-- C4 counterexample: with AMP enabled and available and gradient clip
threshold 5 > 0 configured, the mixed-precision mini-batch body contains
no gradient-clipping operation at all, so the claim that clipping
happens in both variants is false. -/
theorem grad_clip_missing_in_amp :
    0 < cfgAmpClip.gradClip ∧
    StepOp.clipGradNorm ∉ trainStepOps cfgAmpClip true := by
  decide

/-- C4 amended: when a gradient-clip threshold > 0 is configured, the
full-precision mini-batch body clips the gradient norm after the
backward pass and immediately before the optimizer step, while the
mixed-precision body never clips. -/
theorem grad_clip_full_precision_only (cfg : Config) (hclip : 0 < cfg.gradClip) :
    (∃ pre, fullStepOps cfg =
      pre ++ [StepOp.backward, StepOp.clipGradNorm, StepOp.optimizerStep]) ∧
    StepOp.clipGradNorm ∉ ampStepOps cfg := by
  constructor
  · refine ⟨(if 0 < cfg.auxWeight ∧ cfg.modelType = "darts_cnn" then
      [StepOp.forwardPass, StepOp.computeLoss, StepOp.addAuxLoss]
    else
      [StepOp.forwardPass, StepOp.computeLoss]) ++ [StepOp.zeroGrad], ?_⟩
    simp [fullStepOps, hclip]
  · simp only [ampStepOps]
    split_ifs <;> simp

/-- Witness for `grad_clip_full_precision_only` at `cfgAmpClip`. -/
theorem grad_clip_full_precision_only_witness :
    (∃ pre, fullStepOps cfgAmpClip =
      pre ++ [StepOp.backward, StepOp.clipGradNorm, StepOp.optimizerStep]) ∧
    StepOp.clipGradNorm ∉ ampStepOps cfgAmpClip :=
  grad_clip_full_precision_only cfgAmpClip (by norm_num [cfgAmpClip])

/-- The externally visible phases of `train_model` (trainer.py lines
204-264), in program order. -/
inductive Event where
  | setupEnv
  | buildModel
  | constructTrainLoader
  | constructTestLoader
  | benchmarkRun
  | epochIter (e : Nat)
  deriving DecidableEq, Repr

/-- The phase sequence of `train_model` given the number of physically
available GPU devices.  `setup_model` (lines 66-87, called at line 209)
builds the model and then asserts
`cfg.NUM_GPUS <= torch.cuda.device_count()` (line 76); a failed Python
assert raises, so the run ends there with the error string of line 75
and nothing after it executes.  Otherwise the run resolves the start
epoch (lines 213-223), constructs the train and test loaders (lines
225-226), optionally benchmarks when starting fresh with
`cfg.PREC_TIME.NUM_ITER > 0` (lines 230-231), and iterates epochs
`range(start_epoch, cfg.OPTIM.MAX_EPOCH)` (line 234).  Returns the
events that executed and the fatal error, if any. -/
def train_model (cfg : Config) (availableGpus : Nat) (hasCheckpoint : Bool)
    (checkpointEpoch : Nat) : List Event × Option String :=
  if cfg.numGpus ≤ availableGpus then
    let rd := resolveStart cfg hasCheckpoint checkpointEpoch
    ([Event.setupEnv, Event.buildModel,
      Event.constructTrainLoader, Event.constructTestLoader] ++
     (if rd.startEpoch = 0 ∧ 0 < cfg.precTimeNumIter then [Event.benchmarkRun] else []) ++
     (epochsRun rd.startEpoch cfg.maxEpoch).map Event.epochIter, none)
  else
    ([Event.setupEnv, Event.buildModel],
      some "Cannot use more GPU devices than available")

/-- C7: if the configured device count exceeds the available devices,
`train_model` ends with the fatal configuration error, and neither data
loader is constructed nor any epoch iteration run. -/
theorem device_check_fatal (cfg : Config) (availableGpus : Nat)
    (hasCheckpoint : Bool) (checkpointEpoch : Nat)
    (h : availableGpus < cfg.numGpus) :
    (train_model cfg availableGpus hasCheckpoint checkpointEpoch).2 =
      some "Cannot use more GPU devices than available" ∧
    Event.constructTrainLoader ∉
      (train_model cfg availableGpus hasCheckpoint checkpointEpoch).1 ∧
    Event.constructTestLoader ∉
      (train_model cfg availableGpus hasCheckpoint checkpointEpoch).1 ∧
    ∀ e, Event.epochIter e ∉
      (train_model cfg availableGpus hasCheckpoint checkpointEpoch).1 := by
  have hn : ¬ cfg.numGpus ≤ availableGpus := Nat.not_le.mpr h
  refine ⟨?_, ?_, ?_, ?_⟩ <;> simp [train_model, hn]

/-- A concrete configuration requesting 4 devices. -/
def cfgFourGpus : Config :=
  { numGpus := 4, maxEpoch := 5, checkpointPeriod := 1, evalPeriod := 1,
    autoResume := false, weights := "", trainAmp := false, gradClip := 0,
    auxWeight := 0, modelType := "resnet", dropPathProb := 0,
    usePreciseStats := false, precTimeNumIter := 0 }

/-- Witness for `device_check_fatal`: requesting 4 devices with only 1
available terminates with the configuration error before any loader or
epoch. -/
theorem device_check_fatal_witness :
    (train_model cfgFourGpus 1 false 0).2 =
      some "Cannot use more GPU devices than available" ∧
    Event.constructTrainLoader ∉ (train_model cfgFourGpus 1 false 0).1 ∧
    Event.constructTestLoader ∉ (train_model cfgFourGpus 1 false 0).1 ∧
    ∀ e, Event.epochIter e ∉ (train_model cfgFourGpus 1 false 0).1 :=
  device_check_fatal cfgFourGpus 1 false 0 (by norm_num [cfgFourGpus])

/-- State of the dynamic loss scaler in the mixed-precision variant. -/
structure ScalerState where
  scale : ℚ
  growthTracker : Nat
  deriving DecidableEq, Repr

/-- Modelled from the spec: the mixed-precision variant's scaler is
`torch.cuda.amp.GradScaler`, library code outside this repository.  Per
§4.3 and §7 (NumericOverflow), `scaler.step(optimizer)` skips the
optimizer update when inf/NaN gradients are detected, and
`scaler.update()` then reduces the scale factor (halving it and
resetting the success counter); on success the update is applied and the
scale grows after `growthInterval` consecutive successful steps.
Returns the new scaler state and whether the optimizer update was
applied. -/
def scalerStepUpdate (growthInterval : Nat) (s : ScalerState) (overflow : Bool) :
    ScalerState × Bool :=
  if overflow then
    ({ scale := s.scale / 2, growthTracker := 0 }, false)
  else if s.growthTracker + 1 = growthInterval then
    ({ scale := s.scale * 2, growthTracker := 0 }, true)
  else
    ({ scale := s.scale, growthTracker := s.growthTracker + 1 }, true)

/-- One mini-batch of the AMP path, as seen by the optimizer: the
parameter update the optimizer step would apply, and whether the scaled
backward pass produced inf/NaN gradients. -/
structure AmpBatch where
  gradStep : ℚ
  overflow : Bool
  deriving DecidableEq, Repr

/-- The mini-batch loop of `train_epoch` on the AMP path (trainer.py
lines 103-123), restricted to the scaler state and a scalar model
parameter: each batch runs `scaler.step(optimizer)` (applying the
parameter update only when no overflow occurred) followed by
`scaler.update()`, then the loop continues with the next batch; no error
is raised. -/
def ampTrainLoop (growthInterval : Nat) :
    ScalerState → ℚ → List AmpBatch → ScalerState × ℚ
  | s, params, [] => (s, params)
  | s, params, b :: rest =>
      let su := scalerStepUpdate growthInterval s b.overflow
      ampTrainLoop growthInterval su.1
        (if su.2 then params - b.gradStep else params) rest

/-- C8: when a batch overflows, the mixed-precision loop skips that
batch's optimizer update (the parameters entering the rest of the loop
are unchanged), strictly reduces the scale factor, and continues with
the remaining batches — the loop result is exactly the loop on the rest,
so no error reaches the caller. -/
theorem amp_overflow_skips_step (growthInterval : Nat) (s : ScalerState)
    (params : ℚ) (b : AmpBatch) (rest : List AmpBatch)
    (hov : b.overflow = true) (hs : 0 < s.scale) :
    ampTrainLoop growthInterval s params (b :: rest) =
      ampTrainLoop growthInterval
        { scale := s.scale / 2, growthTracker := 0 } params rest ∧
    s.scale / 2 < s.scale := by
  constructor
  · simp [ampTrainLoop, scalerStepUpdate, hov]
  · exact div_lt_self hs (by norm_num)

/-- Witness for `amp_overflow_skips_step` at growth interval 2000, scale
65536, parameter 1, an overflowing batch, and one remaining batch. -/
theorem amp_overflow_skips_step_witness :
    ampTrainLoop 2000 { scale := 65536, growthTracker := 7 } 1
        [{ gradStep := 3, overflow := true }, { gradStep := 2, overflow := false }] =
      ampTrainLoop 2000 { scale := 65536 / 2, growthTracker := 0 } 1
        [{ gradStep := 2, overflow := false }] ∧
    (65536 : ℚ) / 2 < 65536 :=
  amp_overflow_skips_step 2000 { scale := 65536, growthTracker := 7 } 1
    { gradStep := 3, overflow := true } [{ gradStep := 2, overflow := false }]
    rfl (by norm_num)

/-- The per-batch quantities of one mini-batch after the cross-device
reduction: `inputs.size(0)` on this device and the reduced loss and
error rates. -/
structure Batch where
  localSize : Nat
  top1Err : ℚ
  top5Err : ℚ
  loss : ℚ
  deriving DecidableEq, Repr

/-- The record fed to `train_meter.update_stats` for one mini-batch
(trainer.py line 150). -/
structure TrainMeterUpdate where
  top1Err : ℚ
  top5Err : ℚ
  loss : ℚ
  lr : ℚ
  mbSize : Nat
  deriving DecidableEq, Repr

/-- The record fed to `test_meter.update_stats` for one mini-batch
(trainer.py lines 192-193). -/
structure TestMeterUpdate where
  top1Err : ℚ
  top5Err : ℚ
  mbSize : Nat
  deriving DecidableEq, Repr

/-- trainer.py lines 103-152, the meter bookkeeping of `train_epoch`:
for every mini-batch, `mb_size = inputs.size(0) * cfg.NUM_GPUS` (line
149) is recorded together with the reduced stats and the epoch learning
rate (line 150). -/
def train_epoch_updates (cfg : Config) (lr : ℚ) (batches : List Batch) :
    List TrainMeterUpdate :=
  batches.map fun b =>
    { top1Err := b.top1Err, top5Err := b.top5Err, loss := b.loss, lr := lr,
      mbSize := b.localSize * cfg.numGpus }

/-- trainer.py lines 167-195, the meter bookkeeping of `test_epoch`: for
every mini-batch, `inputs.size(0) * cfg.NUM_GPUS` is recorded together
with the reduced error rates (lines 192-193). -/
def test_epoch_updates (cfg : Config) (batches : List Batch) :
    List TestMeterUpdate :=
  batches.map fun b =>
    { top1Err := b.top1Err, top5Err := b.top5Err,
      mbSize := b.localSize * cfg.numGpus }

/-- C9: in both `train_epoch` and `test_epoch`, the sample count
recorded into the meter for every mini-batch is the local per-device
batch size multiplied by the configured device count; whenever more than
one device is configured and the batch is non-empty, this differs from
the local batch size alone. -/
theorem meter_sample_count (cfg : Config) (lr : ℚ) (batches : List Batch) :
    ((train_epoch_updates cfg lr batches).map TrainMeterUpdate.mbSize =
      batches.map fun b => b.localSize * cfg.numGpus) ∧
    ((test_epoch_updates cfg batches).map TestMeterUpdate.mbSize =
      batches.map fun b => b.localSize * cfg.numGpus) ∧
    (∀ b ∈ batches, 1 < cfg.numGpus → 0 < b.localSize →
      b.localSize * cfg.numGpus ≠ b.localSize) := by
  refine ⟨?_, ?_, ?_⟩
  · simp [train_epoch_updates]
  · simp [test_epoch_updates]
  · intro b _ hg hb
    intro hcontra
    nlinarith [hcontra]

/-- A concrete configuration with 2 devices. -/
def cfgTwoGpus : Config :=
  { numGpus := 2, maxEpoch := 5, checkpointPeriod := 1, evalPeriod := 1,
    autoResume := false, weights := "", trainAmp := false, gradClip := 0,
    auxWeight := 0, modelType := "resnet", dropPathProb := 0,
    usePreciseStats := false, precTimeNumIter := 0 }

/-- Witness for `meter_sample_count`: with 2 devices and local batches
of sizes 8 and 8, the recorded counts are 16 and 16. -/
theorem meter_sample_count_witness :
    ((train_epoch_updates cfgTwoGpus (1/10)
        [{ localSize := 8, top1Err := 25, top5Err := 5, loss := 2 },
         { localSize := 8, top1Err := 50, top5Err := 10, loss := 3 }]).map
      TrainMeterUpdate.mbSize = [16, 16]) ∧
    8 * cfgTwoGpus.numGpus ≠ 8 := by
  have h := meter_sample_count cfgTwoGpus (1/10)
    [{ localSize := 8, top1Err := 25, top5Err := 5, loss := 2 },
     { localSize := 8, top1Err := 50, top5Err := 10, loss := 3 }]
  refine ⟨?_, ?_⟩
  · rw [h.1]
    decide
  · exact h.2.2 { localSize := 8, top1Err := 25, top5Err := 5, loss := 2 }
      (by decide) (by decide) (by decide)

/-- Whether a label is among the `k` highest-scoring classes: fewer than
`k` classes score strictly higher than the label's own score. -/
def labelInTopK (k : Nat) (scores : List ℚ) (label : Nat) : Bool :=
  decide ((scores.filter fun s => decide (scores.getD label 0 < s)).length < k)

/-- Modelled from the spec: `meters.topk_errors` lives in
`pytorch_cls/core/meters.py`, which is not under src/.  Per §4.2 and the
glossary, the top-k error of a batch is the fraction of samples whose
true label is not among the k highest-scoring predicted classes. -/
def topkErr (k : Nat) (preds : List (List ℚ)) (labels : List Nat) : ℚ :=
  let pairs := preds.zip labels
  ((pairs.filter fun pl => ! labelInTopK k pl.1 pl.2).length : ℚ) /
    (pairs.length : ℚ)

/-- What the model's forward pass returns: `darts_cnn` models return a
pair of primary and auxiliary predictions, other models a single
prediction tensor.  Predictions are per-sample class-score rows. -/
inductive ModelOutput where
  | single (preds : List (List ℚ))
  | withAux (preds auxPreds : List (List ℚ))
  deriving DecidableEq, Repr

/-- One mini-batch of `test_epoch` (trainer.py lines 167-193): when
`cfg.DARTS.AUX_WEIGHT > 0 and cfg.MODEL.TYPE == 'darts_cnn'`, the
forward result is destructured as `preds, aux_preds = model(inputs)`
(lines 174-175 and 180-181) and only `preds` flows on; otherwise
`preds = model(inputs)`.  The top-1 and top-5 errors are then computed
from `preds` and recorded with `inputs.size(0) * cfg.NUM_GPUS`
(lines 185, 192-193).  Returns `none` when the forward result's shape
does not match the configuration's destructuring. -/
def test_batch_step (cfg : Config) (out : ModelOutput) (labels : List Nat)
    (localSize : Nat) : Option TestMeterUpdate :=
  let primary : Option (List (List ℚ)) :=
    if 0 < cfg.auxWeight ∧ cfg.modelType = "darts_cnn" then
      match out with
      | ModelOutput.withAux preds _ => some preds
      | ModelOutput.single _ => none
    else
      match out with
      | ModelOutput.single preds => some preds
      | ModelOutput.withAux _ _ => none
  primary.map fun preds =>
    { top1Err := topkErr 1 preds labels, top5Err := topkErr 5 preds labels,
      mbSize := localSize * cfg.numGpus }

/-- C10: with the auxiliary-loss model family and a positive auxiliary
weight configured, `test_epoch` discards the auxiliary predictions: the
meter update it produces from `(preds, aux_preds)` is identical, for any
auxiliary predictions, to the update a no-auxiliary configuration (with
the same device count) produces from `preds` alone. -/
theorem aux_preds_discarded_in_test (cfg cfg' : Config)
    (preds auxPreds : List (List ℚ)) (labels : List Nat) (localSize : Nat)
    (hty : cfg.modelType = "darts_cnn") (hw : 0 < cfg.auxWeight)
    (hna : ¬(0 < cfg'.auxWeight ∧ cfg'.modelType = "darts_cnn"))
    (hg : cfg'.numGpus = cfg.numGpus) :
    test_batch_step cfg (ModelOutput.withAux preds auxPreds) labels localSize =
      test_batch_step cfg' (ModelOutput.single preds) labels localSize := by
  simp [test_batch_step, hty, hw, hna, hg]

/-- Witness for `aux_preds_discarded_in_test`: the darts_cnn
configuration with auxiliary weight 2/5 produces, on a concrete batch
with auxiliary predictions, exactly the update the plain resnet
configuration produces from the primary predictions. -/
theorem aux_preds_discarded_in_test_witness :
    test_batch_step cfgDarts
        (ModelOutput.withAux [[1, 0], [0, 1]] [[5, 5], [5, 5]]) [0, 1] 2 =
      test_batch_step cfgResume (ModelOutput.single [[1, 0], [0, 1]]) [0, 1] 2 :=
  aux_preds_discarded_in_test cfgDarts cfgResume [[1, 0], [0, 1]] [[5, 5], [5, 5]]
    [0, 1] 2 rfl (by norm_num [cfgDarts]) (by norm_num [cfgResume]) rfl

end PytorchCls
